import Mathlib

/-!
Verification of the process-sketcher core (scene data model, JSON loader and
serializer, keyframe animation controller, tank fluid dynamics, and the
diameter-scaling / blink laws of the symbol geometry), shallowly embedded
from `src/process_sketcher`.

Python values that flow through the scene document are modelled by the
inductive `JVal` (the value grammar of `json.loads`); Python float
arithmetic is modelled exactly over `ℚ` (and over `ℝ` for the
trigonometric blink law). Component objects are Lean structures holding
the same attributes the Python constructors set, with fields that the code
never coerces kept as raw `JVal`s.
-/

namespace ProcessSketcher

/-- A JSON value as produced by `json.loads`: the dynamic values the loader
and the components manipulate. Objects are insertion-ordered key/value
lists (Python dicts after `json.loads` carry no duplicate keys). -/
inductive JVal where
  | null
  | bool (b : Bool)
  | num (q : ℚ)
  | str (s : String)
  | arr (xs : List JVal)
  | obj (kvs : List (String × JVal))
deriving Repr

mutual
/-- Structural equality test on `JVal`. -/
def JVal.beq : JVal → JVal → Bool
  | .null, .null => true
  | .bool a, .bool b => a == b
  | .num a, .num b => a == b
  | .str a, .str b => a == b
  | .arr xs, .arr ys => JVal.beqList xs ys
  | .obj xs, .obj ys => JVal.beqObj xs ys
  | _, _ => false
/-- Structural equality test on `JVal` lists. -/
def JVal.beqList : List JVal → List JVal → Bool
  | [], [] => true
  | x :: xs, y :: ys => JVal.beq x y && JVal.beqList xs ys
  | _, _ => false
/-- Structural equality test on `JVal` objects. -/
def JVal.beqObj : List (String × JVal) → List (String × JVal) → Bool
  | [], [] => true
  | (k, v) :: xs, (k', v') :: ys => k == k' && JVal.beq v v' && JVal.beqObj xs ys
  | _, _ => false
end

mutual
theorem JVal.beq_iff_eq : ∀ a b : JVal, JVal.beq a b = true ↔ a = b
  | .null, b => by cases b <;> simp [JVal.beq]
  | .bool a, b => by cases b <;> simp [JVal.beq]
  | .num a, b => by cases b <;> simp [JVal.beq]
  | .str a, b => by cases b <;> simp [JVal.beq]
  | .arr xs, b => by
      cases b <;> simp [JVal.beq]
      exact JVal.beqList_iff_eq xs _
  | .obj xs, b => by
      cases b <;> simp [JVal.beq]
      exact JVal.beqObj_iff_eq xs _
theorem JVal.beqList_iff_eq : ∀ xs ys : List JVal, JVal.beqList xs ys = true ↔ xs = ys
  | [], ys => by cases ys <;> simp [JVal.beqList]
  | x :: xs, ys => by
      cases ys with
      | nil => simp [JVal.beqList]
      | cons y ys => simp [JVal.beqList, JVal.beq_iff_eq x y, JVal.beqList_iff_eq xs ys]
theorem JVal.beqObj_iff_eq : ∀ xs ys : List (String × JVal), JVal.beqObj xs ys = true ↔ xs = ys
  | [], ys => by cases ys <;> simp [JVal.beqObj]
  | (k, v) :: xs, ys => by
      cases ys with
      | nil => simp [JVal.beqObj]
      | cons y ys =>
          obtain ⟨k', v'⟩ := y
          simp [JVal.beqObj, JVal.beq_iff_eq v v', JVal.beqObj_iff_eq xs ys, and_assoc]
end

instance : DecidableEq JVal := fun a b => decidable_of_iff _ (JVal.beq_iff_eq a b)

/-- Python `dict.get(key)` on a JSON object: `none` models Python `None`
absence only where the caller distinguishes it; keys are unique. -/
def pyLookup (kvs : List (String × JVal)) (k : String) : Option JVal :=
  (kvs.find? (fun kv => kv.1 = k)).map (·.2)

/-- Python `dict.get(key, default)`. -/
def pyGetD (kvs : List (String × JVal)) (k : String) (d : JVal) : JVal :=
  (pyLookup kvs k).getD d

/-- Python `key in dict`. -/
def pyHasKey (kvs : List (String × JVal)) (k : String) : Bool :=
  kvs.any (fun kv => kv.1 = k)

/-- Python truthiness (`bool(v)`) of a JSON-shaped value: `None` and empty
containers, `0`, `""` and `False` are falsy, everything else truthy. -/
def JVal.truthy : JVal → Bool
  | .null => false
  | .bool b => b
  | .num q => q ≠ 0
  | .str s => s ≠ ""
  | .arr xs => !xs.isEmpty
  | .obj kvs => !kvs.isEmpty

/-- Python numeric coercion used by arithmetic and comparisons: JSON numbers
are numbers, Python `bool` is an `int` subtype (`True == 1`); anything else
raises `TypeError` (modelled as `none`). -/
def JVal.asNum : JVal → Option ℚ
  | .num q => some q
  | .bool b => some (if b then 1 else 0)
  | _ => none

/-- Python `tuple(v)` / iteration of a value into a list of elements:
sequences yield their elements, strings their one-character strings,
dicts their keys; scalars raise `TypeError` (modelled as `none`). -/
def pySeqToList : JVal → Option (List JVal)
  | .arr xs => some xs
  | .str s => some (s.toList.map (fun c => JVal.str (String.singleton c)))
  | .obj kvs => some (kvs.map (fun kv => JVal.str kv.1))
  | _ => none

/-- Python float `%` (modulo with the divisor's sign, here for positive
divisors): `a % b = a - b * floor (a / b)`. -/
def pymod (a b : ℚ) : ℚ := a - b * ⌊a / b⌋

/-- Python `int(x)` on a float: truncation toward zero. -/
def pyint (q : ℚ) : ℤ := if 0 ≤ q then ⌊q⌋ else -⌊-q⌋

theorem pymod_eq_mul_fract (a : ℚ) {b : ℚ} (hb : b ≠ 0) :
    pymod a b = b * Int.fract (a / b) := by
  unfold pymod Int.fract
  rw [mul_sub, mul_div_cancel₀ a hb]

theorem pymod_nonneg (a : ℚ) {b : ℚ} (hb : 0 < b) : 0 ≤ pymod a b := by
  have h := Int.fract_nonneg (a / b)
  rw [pymod_eq_mul_fract a (ne_of_gt hb)]
  positivity

theorem pymod_lt (a : ℚ) {b : ℚ} (hb : 0 < b) : pymod a b < b := by
  have h := Int.fract_lt_one (a / b)
  rw [pymod_eq_mul_fract a (ne_of_gt hb)]
  calc b * Int.fract (a / b) < b * 1 := by
        exact (mul_lt_mul_left hb).mpr h
    _ = b := mul_one b

theorem pymod_add_int_mul (a : ℚ) {b : ℚ} (hb : b ≠ 0) (k : ℤ) :
    pymod (a + k * b) b = pymod a b := by
  unfold pymod
  have hdiv : (a + k * b) / b = a / b + (k : ℚ) := by
    field_simp
  rw [hdiv, Int.floor_add_int]
  push_cast
  ring

/-! ### Animation controller (`animation.py`)

A keyframe arrives as a JSON object; `AnimationController.__init__` reads
its numeric `duration` (missing defaults to `0`) and keeps the remaining
keys as the property-override map. `Keyframe` below is that already-split
view: its `duration` is the number `kf.get('duration', 0)` evaluates to and
`props` the dictionary `{k: v for k, v in kf.items() if k != 'duration'}`. -/

/-- One keyframe as consumed by `AnimationController.__init__`. -/
structure Keyframe where
  duration : ℚ
  props : List (String × JVal)
deriving DecidableEq

/-- State built by `AnimationController.__init__`: the stored per-keyframe
property maps and the coerced duration schedule. -/
structure AnimationController where
  keyframes : List (List (String × JVal))
  durations : List ℚ
deriving DecidableEq

/-- `AnimationController.__init__`: durations `≤ 0` are coerced to the
minimal positive floor `0.001`; properties other than `duration` are kept. -/
def AnimationController.ofKeyframes (kfs : List Keyframe) : AnimationController :=
  { keyframes := kfs.map (·.props)
    durations := kfs.map (fun kf => if kf.duration ≤ 0 then 1/1000 else kf.duration) }

/-- `AnimationController.total_duration`: the sum of the coerced durations. -/
def AnimationController.totalDuration (c : AnimationController) : ℚ :=
  c.durations.sum

/-- The scan loop of `get_active_keyframe_index`: accumulate `elapsed` and
return the first index whose cumulative duration exceeds `cycle_time`. -/
def activeIndexLoop : List ℚ → ℚ → ℚ → Option ℕ
  | [], _, _ => none
  | d :: rest, cycleTime, elapsed =>
      if cycleTime < elapsed + d then some 0
      else (activeIndexLoop rest cycleTime (elapsed + d)).map (· + 1)

/-- `AnimationController.get_active_keyframe_index`: `-1` when there are no
keyframes or no positive total duration; otherwise the index of the
keyframe containing `time mod total_duration`, falling back to the last
keyframe if the scan finds none. -/
def AnimationController.getActiveKeyframeIndex (c : AnimationController) (time : ℚ) : ℤ :=
  if c.keyframes.isEmpty ∨ c.totalDuration ≤ 0 then -1
  else
    let cycleTime := pymod time c.totalDuration
    match activeIndexLoop c.durations cycleTime 0 with
    | some i => (i : ℤ)
    | none => (c.keyframes.length : ℤ) - 1

/-- `AnimationController.get_active_keyframe`: the active keyframe's
property map, or `none` when the index is `-1`. -/
def AnimationController.getActiveKeyframe (c : AnimationController) (time : ℚ) :
    Option (List (String × JVal)) :=
  let i := c.getActiveKeyframeIndex time
  if i < 0 then none
  else c.keyframes.get? i.toNat

/-- The per-value conversion of `get_property_overrides`: lists become
tuples. Tuples and lists are both `JVal.arr` here, so the conversion is
the identity on the value; the fixed-arity guarantee is the statement that
the result is never a `list` in Python terms. -/
def convertOverrideValue : JVal → JVal
  | .arr xs => .arr xs
  | v => v

/-- `AnimationController.get_property_overrides`: the active keyframe's map
with sequence values normalized, or empty when there is no active keyframe. -/
def AnimationController.getPropertyOverrides (c : AnimationController) (time : ℚ) :
    List (String × JVal) :=
  match c.getActiveKeyframe time with
  | none => []
  | some kf => kf.map (fun kv => (kv.1, convertOverrideValue kv.2))

/-! ### Property save/apply/restore (`components/base.py`)

`apply_animation` and `restore_properties` act on a component's attribute
dictionary through `hasattr`/`getattr`/`setattr`. A component's attribute
state is modelled as its insertion-ordered `__dict__`: an association list
from attribute name to value. -/

/-- A component's attribute dictionary (`self.__dict__`). -/
def PropMap := List (String × JVal)
deriving DecidableEq

/-- Python `hasattr(self, prop)`. -/
def PropMap.hasattr (m : PropMap) (k : String) : Bool :=
  (List.any m (fun kv => kv.1 = k))

/-- Python `getattr(self, prop)` (first binding; `.null` when absent, a case
`apply_animation` never reaches because of its `hasattr` guard). -/
def PropMap.getattr (m : PropMap) (k : String) : JVal :=
  ((List.find? (fun kv => kv.1 = k) m).map (·.2)).getD .null

/-- Python `setattr(self, prop, value)`: overwrite an existing attribute in
place, or append a new one. -/
def PropMap.setattr : PropMap → String → JVal → PropMap
  | [], k, v => [(k, v)]
  | (k', v') :: rest, k, v =>
      if k' = k then (k, v) :: rest else (k', v') :: PropMap.setattr rest k v

/-- The override loop of `Component.apply_animation`: for each override in
dictionary order, if the component has the attribute, record its current
value in `originals` and overwrite it; otherwise skip the key. Returns the
final attribute state and the `originals` dictionary. -/
def applyOverrides : PropMap → List (String × JVal) → PropMap × List (String × JVal)
  | m, [] => (m, [])
  | m, (k, v) :: rest =>
      if m.hasattr k then
        ((applyOverrides (m.setattr k v) rest).1,
          (k, m.getattr k) :: (applyOverrides (m.setattr k v) rest).2)
      else applyOverrides m rest

/-- `Component.restore_properties`: write every recorded original back. -/
def restoreProperties (m : PropMap) (originals : List (String × JVal)) : PropMap :=
  originals.foldl (fun m kv => m.setattr kv.1 kv.2) m

theorem hasattr_cons (k1 : String) (v1 : JVal) (tl : PropMap) (k : String) :
    PropMap.hasattr ((k1, v1) :: tl) k = (decide (k1 = k) || PropMap.hasattr tl k) := rfl

theorem getattr_cons (k1 : String) (v1 : JVal) (tl : PropMap) (k : String) :
    PropMap.getattr ((k1, v1) :: tl) k =
      if k1 = k then v1 else PropMap.getattr tl k := by
  unfold PropMap.getattr
  by_cases h : k1 = k <;> simp [List.find?, h]

theorem setattr_cons (k1 : String) (v1 : JVal) (tl : PropMap) (k : String) (v : JVal) :
    PropMap.setattr ((k1, v1) :: tl) k v =
      if k1 = k then (k, v) :: tl else (k1, v1) :: PropMap.setattr tl k v := rfl

theorem applyOverrides_cons_true (m : PropMap) (k : String) (v : JVal)
    (rest : List (String × JVal)) (h : m.hasattr k = true) :
    applyOverrides m ((k, v) :: rest) =
      ((applyOverrides (m.setattr k v) rest).1,
        (k, m.getattr k) :: (applyOverrides (m.setattr k v) rest).2) := by
  simp only [applyOverrides, h, if_true]

theorem applyOverrides_cons_false (m : PropMap) (k : String) (v : JVal)
    (rest : List (String × JVal)) (h : m.hasattr k = false) :
    applyOverrides m ((k, v) :: rest) = applyOverrides m rest := by
  simp only [applyOverrides, h, Bool.false_eq_true, if_false]

theorem setattr_keys_of_hasattr (m : PropMap) (k : String) (v : JVal)
    (h : m.hasattr k = true) : (m.setattr k v).map Prod.fst = m.map Prod.fst := by
  induction m with
  | nil => simp [PropMap.hasattr] at h
  | cons hd tl ih =>
      obtain ⟨k1, v1⟩ := hd
      rw [hasattr_cons] at h
      rw [setattr_cons]
      by_cases hk : k1 = k
      · subst hk
        simp
      · simp only [hk, if_false, List.map_cons, List.cons.injEq, true_and]
        simp only [hk, decide_False, Bool.false_or] at h
        exact ih h

theorem hasattr_eq_keys_any (m : PropMap) (k : String) :
    m.hasattr k = (m.map Prod.fst).any (fun s => s = k) := by
  induction m with
  | nil => rfl
  | cons hd tl ih =>
      obtain ⟨k1, v1⟩ := hd
      rw [hasattr_cons, ih]
      rfl

theorem hasattr_eq_of_keys_eq {m m' : PropMap}
    (h : m.map Prod.fst = m'.map Prod.fst) (k : String) :
    m.hasattr k = m'.hasattr k := by
  rw [hasattr_eq_keys_any, hasattr_eq_keys_any, h]

theorem getattr_setattr_ne (m : PropMap) {k k' : String} (v : JVal) (h : k' ≠ k) :
    (m.setattr k v).getattr k' = m.getattr k' := by
  induction m with
  | nil =>
      show PropMap.getattr [(k, v)] k' = PropMap.getattr [] k'
      rw [getattr_cons]
      simp [Ne.symm h]
  | cons hd tl ih =>
      obtain ⟨k1, v1⟩ := hd
      rw [setattr_cons]
      by_cases hk : k1 = k
      · subst hk
        rw [if_pos rfl, getattr_cons, getattr_cons]
        simp [Ne.symm h]
      · simp only [hk, if_false]
        rw [getattr_cons, getattr_cons]
        by_cases hk' : k1 = k'
        · simp [hk']
        · simp [hk', ih]

theorem setattr_getattr_self (m : PropMap) (k : String) (h : m.hasattr k = true) :
    m.setattr k (m.getattr k) = m := by
  induction m with
  | nil => simp [PropMap.hasattr] at h
  | cons hd tl ih =>
      obtain ⟨k1, v1⟩ := hd
      rw [hasattr_cons] at h
      rw [getattr_cons, setattr_cons]
      by_cases hk : k1 = k
      · subst hk
        simp
      · simp only [hk, if_false]
        simp only [hk, decide_False, Bool.false_or] at h
        exact congrArg _ (ih h)

theorem hasattr_setattr (m : PropMap) (k k' : String) (v : JVal) :
    (m.setattr k' v).hasattr k = (decide (k' = k) || m.hasattr k) := by
  induction m with
  | nil =>
      show PropMap.hasattr [(k', v)] k = _
      rw [hasattr_cons]
  | cons hd tl ih =>
      obtain ⟨k1, v1⟩ := hd
      rw [setattr_cons]
      by_cases h1 : k1 = k'
      · subst h1
        rw [if_pos rfl, hasattr_cons, hasattr_cons]
        cases hk1 : decide (k1 = k) <;> simp [hk1]
      · rw [if_neg h1, hasattr_cons, hasattr_cons, ih]
        cases hk1 : decide (k1 = k) <;> cases hk' : decide (k' = k) <;> simp [hk1, hk']

theorem setattr_setattr_same (m : PropMap) (k : String) (v w : JVal) :
    (m.setattr k v).setattr k w = m.setattr k w := by
  induction m with
  | nil =>
      show PropMap.setattr [(k, v)] k w = _
      rw [setattr_cons, if_pos rfl]
      rfl
  | cons hd tl ih =>
      obtain ⟨k1, v1⟩ := hd
      rw [setattr_cons, setattr_cons]
      by_cases h1 : k1 = k
      · subst h1
        rw [if_pos rfl, if_pos rfl, setattr_cons, if_pos rfl]
      · rw [if_neg h1, if_neg h1, setattr_cons, if_neg h1, ih]

theorem setattr_comm_ne (m : PropMap) {k k0 : String} (v v0 : JVal)
    (h : k ≠ k0) (hm : m.hasattr k = true) :
    (m.setattr k v).setattr k0 v0 = (m.setattr k0 v0).setattr k v := by
  induction m with
  | nil => simp [PropMap.hasattr] at hm
  | cons hd tl ih =>
      obtain ⟨k1, v1⟩ := hd
      rw [hasattr_cons] at hm
      rw [setattr_cons, setattr_cons]
      by_cases h1 : k1 = k
      · subst h1
        rw [if_pos rfl, if_neg h, setattr_cons, if_neg h, setattr_cons, if_pos rfl]
      · rw [if_neg h1]
        by_cases h2 : k1 = k0
        · subst h2
          rw [if_pos rfl, setattr_cons, if_pos rfl, setattr_cons, if_neg h1]
        · rw [if_neg h2, setattr_cons, if_neg h2, setattr_cons, if_neg h1]
          simp only [h1, decide_False, Bool.false_or] at hm
          rw [ih hm]

theorem restore_setattr_comm (m : PropMap) (l : List (String × JVal))
    (k : String) (v : JVal) (hk : k ∉ l.map Prod.fst) (hm : m.hasattr k = true) :
    restoreProperties (m.setattr k v) l = (restoreProperties m l).setattr k v := by
  induction l generalizing m with
  | nil => simp [restoreProperties]
  | cons hd tl ih =>
      obtain ⟨k0, v0⟩ := hd
      simp only [List.map_cons, List.mem_cons] at hk
      push_neg at hk
      show restoreProperties ((m.setattr k v).setattr k0 v0) tl =
        (restoreProperties (m.setattr k0 v0) tl).setattr k v
      rw [setattr_comm_ne m v v0 hk.1 hm]
      refine ih (m.setattr k0 v0) hk.2 ?_
      rw [hasattr_setattr, hm]
      simp

/-- Domain preservation: the apply loop only overwrites existing attributes,
so the attribute-name list (and hence the set of attributes) is unchanged. -/
theorem applyOverrides_keys (m : PropMap) (ov : List (String × JVal)) :
    (applyOverrides m ov).1.map Prod.fst = m.map Prod.fst := by
  induction ov generalizing m with
  | nil => simp [applyOverrides]
  | cons hd tl ih =>
      obtain ⟨k, v⟩ := hd
      cases h : m.hasattr k
      · rw [applyOverrides_cons_false m k v tl h]
        exact ih m
      · rw [applyOverrides_cons_true m k v tl h]
        rw [ih (m.setattr k v), setattr_keys_of_hasattr m k v h]

/-- The `originals` dictionary holds exactly the override keys the component
actually has, in override order. -/
theorem applyOverrides_orig_keys (m : PropMap) (ov : List (String × JVal)) :
    (applyOverrides m ov).2.map Prod.fst =
      (ov.map Prod.fst).filter (fun k => m.hasattr k) := by
  induction ov generalizing m with
  | nil => simp [applyOverrides]
  | cons hd tl ih =>
      obtain ⟨k, v⟩ := hd
      cases h : m.hasattr k
      · rw [applyOverrides_cons_false m k v tl h]
        simp only [List.map_cons, List.filter_cons, h, Bool.false_eq_true, if_false]
        exact ih m
      · rw [applyOverrides_cons_true m k v tl h]
        simp only [List.map_cons, List.filter_cons, h, if_true]
        rw [ih (m.setattr k v)]
        have hkeys : ∀ k', (m.setattr k v).hasattr k' = m.hasattr k' :=
          hasattr_eq_of_keys_eq (setattr_keys_of_hasattr m k v h)
        simp only [hkeys]

/-- Attributes not named by any override keep their value through the loop. -/
theorem applyOverrides_getattr_not_mem (m : PropMap) (ov : List (String × JVal))
    (k : String) (hk : k ∉ ov.map Prod.fst) :
    (applyOverrides m ov).1.getattr k = m.getattr k := by
  induction ov generalizing m with
  | nil => simp [applyOverrides]
  | cons hd tl ih =>
      obtain ⟨k0, v0⟩ := hd
      simp only [List.map_cons, List.mem_cons] at hk
      push_neg at hk
      cases h : m.hasattr k0
      · rw [applyOverrides_cons_false m k0 v0 tl h]
        exact ih m hk.2
      · rw [applyOverrides_cons_true m k0 v0 tl h]
        show (applyOverrides (m.setattr k0 v0) tl).1.getattr k = m.getattr k
        rw [ih (m.setattr k0 v0) hk.2, getattr_setattr_ne m v0 hk.1]

/-- Save/apply/restore identity on the attribute dictionary alone: when the
override keys are distinct (Python dict keys always are), restoring the
recorded originals undoes every write of the apply loop exactly. -/
theorem restore_applyOverrides (m : PropMap) (ov : List (String × JVal))
    (hnd : (ov.map Prod.fst).Nodup) :
    restoreProperties (applyOverrides m ov).1 (applyOverrides m ov).2 = m := by
  induction ov generalizing m with
  | nil => simp [applyOverrides, restoreProperties]
  | cons hd tl ih =>
      obtain ⟨k, v⟩ := hd
      simp only [List.map_cons, List.nodup_cons] at hnd
      cases h : m.hasattr k
      · rw [applyOverrides_cons_false m k v tl h]
        exact ih m hnd.2
      · rw [applyOverrides_cons_true m k v tl h]
        have hk2 : k ∉ (applyOverrides (m.setattr k v) tl).2.map Prod.fst := by
          rw [applyOverrides_orig_keys]
          intro hmem
          exact hnd.1 (List.mem_of_mem_filter hmem)
        have hpres : ((applyOverrides (m.setattr k v) tl).1).hasattr k = true := by
          rw [hasattr_eq_of_keys_eq (applyOverrides_keys (m.setattr k v) tl) k,
            hasattr_setattr]
          simp
        show restoreProperties
          ((applyOverrides (m.setattr k v) tl).1.setattr k (m.getattr k))
          (applyOverrides (m.setattr k v) tl).2 = m
        rw [restore_setattr_comm _ _ _ _ hk2 hpres, ih (m.setattr k v) hnd.2,
          setattr_setattr_same, setattr_getattr_self m k h]


theorem activeIndexLoop_some (ds : List ℚ) (ct : ℚ) :
    ∀ elapsed : ℚ, elapsed ≤ ct → ct < elapsed + ds.sum →
    ∃ i, activeIndexLoop ds ct elapsed = some i := by
  induction ds with
  | nil =>
      intro elapsed h0 h1
      rw [List.sum_nil, add_zero] at h1
      exact absurd h1 (not_lt.mpr h0)
  | cons d rest ih =>
      intro elapsed h0 h1
      by_cases hd : ct < elapsed + d
      · exact ⟨0, by simp [activeIndexLoop, hd]⟩
      · push_neg at hd
        rw [List.sum_cons] at h1
        rcases ih (elapsed + d) hd (by linarith) with ⟨j, hj⟩
        refine ⟨j + 1, ?_⟩
        rw [activeIndexLoop, if_neg (not_lt.mpr hd), hj]
        rfl

theorem activeIndexLoop_sound (ds : List ℚ) (ct : ℚ) :
    ∀ (elapsed : ℚ) (i : ℕ), activeIndexLoop ds ct elapsed = some i → elapsed ≤ ct →
    i < ds.length ∧ elapsed + (ds.take i).sum ≤ ct ∧ ct < elapsed + (ds.take (i+1)).sum := by
  induction ds with
  | nil => intro elapsed i h _; cases h
  | cons d rest ih =>
      intro elapsed i h h0
      by_cases hd : ct < elapsed + d
      · rw [activeIndexLoop, if_pos hd] at h
        injection h with h
        subst h
        refine ⟨Nat.succ_pos _, ?_, ?_⟩
        · simpa using h0
        · simpa using hd
      · rw [activeIndexLoop, if_neg hd] at h
        push_neg at hd
        rcases Option.map_eq_some'.mp h with ⟨j, hj, hij⟩
        obtain ⟨hlen, hlow, hhigh⟩ := ih (elapsed + d) j hj hd
        subst hij
        refine ⟨by simpa using hlen, ?_, ?_⟩
        · rw [List.take_succ_cons, List.sum_cons, ← add_assoc]
          exact hlow
        · rw [List.take_succ_cons, List.sum_cons, ← add_assoc]
          exact hhigh

theorem ofKeyframes_durations_pos (kfs : List Keyframe) :
    ∀ d ∈ (AnimationController.ofKeyframes kfs).durations, 0 < d := by
  intro d hd
  simp only [AnimationController.ofKeyframes, List.mem_map] at hd
  rcases hd with ⟨kf, _, hkf⟩
  by_cases h : kf.duration ≤ 0
  · rw [if_pos h] at hkf
    rw [← hkf]
    norm_num
  · rw [if_neg h] at hkf
    rw [← hkf]
    exact lt_of_not_le h

theorem ofKeyframes_total_pos (kfs : List Keyframe) (hne : kfs ≠ []) :
    0 < (AnimationController.ofKeyframes kfs).totalDuration := by
  apply List.sum_pos
  · exact ofKeyframes_durations_pos kfs
  · simp [AnimationController.ofKeyframes]
    exact hne

theorem getActiveKeyframeIndex_periodic (c : AnimationController) (t : ℚ) (k : ℤ) :
    c.getActiveKeyframeIndex (t + k * c.totalDuration) = c.getActiveKeyframeIndex t := by
  unfold AnimationController.getActiveKeyframeIndex
  by_cases hc : c.keyframes.isEmpty = true ∨ c.totalDuration ≤ 0
  · rw [if_pos hc, if_pos hc]
  · rw [if_neg hc, if_neg hc]
    push_neg at hc
    have hT : c.totalDuration ≠ 0 := ne_of_gt hc.2
    rw [pymod_add_int_mul t hT k]

theorem getActiveKeyframeIndex_spec (kfs : List Keyframe) (hne : kfs ≠ []) (t : ℚ) :
    ∃ i : ℕ, i < kfs.length ∧
      (AnimationController.ofKeyframes kfs).getActiveKeyframeIndex t = (i : ℤ) ∧
      (((AnimationController.ofKeyframes kfs).durations.take i).sum ≤
        pymod t (AnimationController.ofKeyframes kfs).totalDuration) ∧
      (pymod t (AnimationController.ofKeyframes kfs).totalDuration <
        ((AnimationController.ofKeyframes kfs).durations.take (i+1)).sum) := by
  have hT := ofKeyframes_total_pos kfs hne
  have h0 := pymod_nonneg t hT
  have hlt := pymod_lt t hT
  have hlen : (AnimationController.ofKeyframes kfs).durations.length = kfs.length := by
    simp [AnimationController.ofKeyframes]
  rcases activeIndexLoop_some (AnimationController.ofKeyframes kfs).durations
      (pymod t (AnimationController.ofKeyframes kfs).totalDuration) 0 h0
      (by rw [zero_add]; exact hlt) with ⟨i, hi⟩
  obtain ⟨hilen, hlow, hhigh⟩ := activeIndexLoop_sound _ _ 0 i hi h0
  refine ⟨i, hlen ▸ hilen, ?_, by simpa using hlow, by simpa using hhigh⟩
  unfold AnimationController.getActiveKeyframeIndex
  rw [if_neg ?_]
  · simp only [hi]
  · push_neg
    constructor
    · simp [AnimationController.ofKeyframes]
      exact hne
    · exact lt_of_lt_of_le hT (le_refl _)

/-! ### Scene loader / serializer (`json_loader.py` and the component
`from_dict` / `to_dict` methods)

The loader consumes the value produced by `json.loads` (a `JVal`), so
`load_from_string` is modelled from the point after text decoding; the
serializer produces the `JVal` that `_compact_json_formatter` renders
(the formatter is a pure layout choice whose output re-parses to the same
value). Component attributes the Python code never coerces are stored as
raw `JVal`s; numeric fields the code computes with (`fill_percent`, fluid
`percent`/`drain_rate`/`fill_rate`, keyframe durations) are stored as
exact rationals. A fluid dictionary is modelled through its five
documented keys (absent `color`/`name` tracked; absent numeric fields are
their `get` defaults). -/

/-- Loader failure taxonomy (`ValueError`s of `json_loader.py` plus the
`KeyError`/`TypeError`s escaping the per-variant constructors). -/
inductive LoadError where
  | notAnObject
  | componentsNotArray
  | unknownType (tag : JVal)
  | fieldError (ctx : String)
deriving DecidableEq

/-- Human-readable message of an error, as the raised exception renders it
(`UnknownComponentTypeError` is `ValueError(f"Unknown component type: {tag}")`). -/
def LoadError.message : LoadError → String
  | .notAnObject => "JSON must be an object"
  | .componentsNotArray => "components must be an array"
  | .unknownType (.str s) => "Unknown component type: " ++ s
  | .unknownType .null => "Unknown component type: None"
  | .unknownType _ => "Unknown component type: "
  | .fieldError ctx => ctx

/-- Required sequence field: `tuple(data[k])` — `KeyError` when missing,
`TypeError` when not iterable. -/
def reqSeq (kvs : List (String × JVal)) (k : String) :
    Except LoadError (List JVal) :=
  match pyLookup kvs k with
  | none => .error (.fieldError ("missing required field " ++ k))
  | some v =>
      match pySeqToList v with
      | none => .error (.fieldError ("field " ++ k ++ " is not a sequence"))
      | some xs => .ok xs

/-- Optional sequence field with default: `tuple(data.get(k, d))`. -/
def optSeq (kvs : List (String × JVal)) (k : String) (d : List JVal) :
    Except LoadError (List JVal) :=
  match pyLookup kvs k with
  | none => .ok d
  | some v =>
      match pySeqToList v with
      | none => .error (.fieldError ("field " ++ k ++ " is not a sequence"))
      | some xs => .ok xs

/-- Optional numeric field with default: `data.get(k, d)` followed by the
arithmetic the constructor performs on it (`TypeError` on non-numbers). -/
def optNum (kvs : List (String × JVal)) (k : String) (d : ℚ) :
    Except LoadError ℚ :=
  match pyLookup kvs k with
  | none => .ok d
  | some v =>
      match v.asNum with
      | none => .error (.fieldError ("field " ++ k ++ " is not a number"))
      | some q => .ok q

/-- Success condition of `AnimationController.__init__` on one keyframe:
the element is a dictionary whose `duration`, when present, is numeric
(`kf.get('duration', 0)` is then compared with `0`). -/
def validKeyframeObj : JVal → Bool
  | .obj kvs =>
      match pyLookup kvs "duration" with
      | none => true
      | some v => (v.asNum).isSome
  | _ => false

/-- Success condition of `AnimationController.__init__` on the whole
`animation` value: truthy values must be lists of keyframe dictionaries
(iterating anything else fails before the controller is stored). -/
def validAnimationData : JVal → Bool
  | .arr kfs => kfs.all validKeyframeObj
  | _ => false

/-- `Component.set_animation` reached through `from_dict`: absent or falsy
data leaves `_animation_data = None` (here `.null`); truthy data must pass
controller construction and is stored raw. -/
def extractAnimation (kvs : List (String × JVal)) : Except LoadError JVal :=
  match pyLookup kvs "animation" with
  | none => .ok .null
  | some v =>
      if v.truthy then
        if validAnimationData v then .ok v
        else .error (.fieldError "invalid animation data")
      else .ok .null

/-- The `animation` entry `_add_animation_to_dict` emits: present iff the
stored data is truthy. -/
def animationField (a : JVal) : List (String × JVal) :=
  if a.truthy then [("animation", a)] else []

/-- A Tank fluid layer (`tank.py` fluid dictionaries) seen through its five
documented keys; `percent`, `drain_rate`, `fill_rate` default to `0`
(`dict.get`/`setdefault` defaults). -/
structure Fluid where
  color : Option JVal
  name : Option JVal
  percent : ℚ
  drain_rate : ℚ
  fill_rate : ℚ
deriving DecidableEq

/-- The default single water layer `Tank.__init__` installs when `fluids`
is `None`. -/
def defaultWaterFluid : Fluid :=
  { color := some (.arr [.num 100, .num 150, .num 255])
    name := some (.str "water")
    percent := 100
    drain_rate := 0
    fill_rate := 0 }

/-- Python exception propagation over a list: build the result list in
order, aborting on the first failure (the loop of `load_from_string` and
the fluid loop of `Tank.__init__`). -/
def mapExcept (f : α → Except LoadError β) : List α → Except LoadError (List β)
  | [] => .ok []
  | x :: xs =>
      match f x with
      | .error e => .error e
      | .ok y =>
          match mapExcept f xs with
          | .error e => .error e
          | .ok ys => .ok (y :: ys)

/-- Parse one fluid dictionary (`Tank.__init__` requires a dict; its
`percent` participates in `sum`, so it must be numeric or absent). -/
def parseFluid : JVal → Except LoadError Fluid
  | .obj kvs =>
      match optNum kvs "percent" 0 with
      | .error e => .error e
      | .ok percent =>
          match optNum kvs "drain_rate" 0 with
          | .error e => .error e
          | .ok drain =>
              match optNum kvs "fill_rate" 0 with
              | .error e => .error e
              | .ok fill =>
                  .ok { color := pyLookup kvs "color", name := pyLookup kvs "name",
                        percent := percent, drain_rate := drain, fill_rate := fill }
  | _ => .error (.fieldError "fluid entry is not an object")

/-- Serialization of one fluid layer back into its dictionary. -/
def Fluid.toDict (f : Fluid) : JVal :=
  .obj ((match f.color with | some c => [("color", c)] | none => []) ++
        (match f.name with | some n => [("name", n)] | none => []) ++
        [("percent", .num f.percent), ("drain_rate", .num f.drain_rate),
         ("fill_rate", .num f.fill_rate)])

/-- `Tank._normalize_fluid_percentages`: when the percents sum to a
positive total, rescale every layer so they sum to the initial fill. -/
def normalizeFluidPercents (initialFill : ℚ) (fluids : List Fluid) : List Fluid :=
  let total := (fluids.map (·.percent)).sum
  if 0 < total then
    fluids.map (fun f => { f with percent := f.percent / total * initialFill })
  else fluids

/-- The clamp `max(0.0, min(100.0, fill_percent))` of `Tank.__init__`. -/
def clampPercent (q : ℚ) : ℚ := max 0 (min 100 q)

/-- A Tank component (`tank.py`): attributes set by `Tank.__init__` plus
the inherited label and animation state. -/
structure Tank where
  id : JVal
  position : List JVal
  width : JVal
  height : JVal
  top_style : JVal
  bottom_style : JVal
  initial_fill_percent : ℚ
  fill_percent : ℚ
  wall_thickness : JVal
  fluids : List Fluid
  last_update_time : ℚ
  show_label : JVal
  label_text : JVal
  label_position : JVal
  animationData : JVal
deriving DecidableEq

/-- `Tank.fluids` raw-field parse: `data.get("fluids")` is `None` (default
single water layer) or a list of fluid dictionaries. -/
def parseFluidsField (kvs : List (String × JVal)) : Except LoadError (List Fluid) :=
  match pyLookup kvs "fluids" with
  | none => .ok [defaultWaterFluid]
  | some .null => .ok [defaultWaterFluid]
  | some (.arr xs) => mapExcept parseFluid xs
  | some _ => .error (.fieldError "fluids is not a list of objects")

/-- `Tank.from_dict` composed with `Tank.__init__`. -/
def Tank.fromDict (kvs : List (String × JVal)) : Except LoadError Tank :=
  match reqSeq kvs "position" with
  | .error e => .error e
  | .ok position =>
  match optNum kvs "fill_percent" 75 with
  | .error e => .error e
  | .ok fillRaw =>
  match parseFluidsField kvs with
  | .error e => .error e
  | .ok fluids =>
  match extractAnimation kvs with
  | .error e => .error e
  | .ok anim =>
  let F := clampPercent fillRaw
  .ok { id := pyGetD kvs "id" .null
        position := position
        width := pyGetD kvs "width" (.num 3)
        height := pyGetD kvs "height" (.num 4)
        top_style := pyGetD kvs "top_style" (.str "flat")
        bottom_style := pyGetD kvs "bottom_style" (.str "flat")
        initial_fill_percent := F
        fill_percent := F
        wall_thickness := pyGetD kvs "wall_thickness" (.num 3)
        fluids := normalizeFluidPercents F fluids
        last_update_time := 0
        show_label := (pyLookup kvs "show_label").getD (.bool true)
        label_text := (pyLookup kvs "label_text").getD .null
        label_position := (pyLookup kvs "label_position").getD (.str "above")
        animationData := anim }

/-- The label entries `_add_label_to_dict` emits for a component whose
default label visibility is `True` (Tank's case): an explicit
`show_label: false` for falsy visibility, `label_text` when set, and a
non-default `label_position`. -/
def tankLabelFields (t : Tank) : List (String × JVal) :=
  (if t.show_label.truthy then [] else [("show_label", .bool false)]) ++
  (if t.label_text = JVal.null then [] else [("label_text", t.label_text)]) ++
  (if t.label_position = JVal.str "above" then []
   else [("label_position", t.label_position)])

/-- `Tank.to_dict`. -/
def Tank.toDict (t : Tank) : JVal :=
  .obj ([("type", .str "tank"), ("id", t.id), ("position", .arr t.position),
         ("width", t.width), ("height", t.height), ("top_style", t.top_style),
         ("bottom_style", t.bottom_style),
         ("fluids", .arr (t.fluids.map Fluid.toDict)),
         ("fill_percent", .num t.initial_fill_percent),
         ("wall_thickness", t.wall_thickness)]
        ++ tankLabelFields t ++ animationField t.animationData)

/-- A Pipe component (`pipe.py`). -/
structure Pipe where
  id : JVal
  position : List JVal
  end_position : List JVal
  fluid_type : JVal
  color : List JVal
  flow_direction : JVal
  diameter : JVal
  trim_start : JVal
  trim_end : JVal
  animationData : JVal
deriving DecidableEq

/-- `Pipe.from_dict` composed with `Pipe.__init__`. -/
def Pipe.fromDict (kvs : List (String × JVal)) : Except LoadError Pipe :=
  match reqSeq kvs "position" with
  | .error e => .error e
  | .ok position =>
  match reqSeq kvs "end_position" with
  | .error e => .error e
  | .ok endPos =>
  match optSeq kvs "color" [.num 100, .num 150, .num 255] with
  | .error e => .error e
  | .ok color =>
  match extractAnimation kvs with
  | .error e => .error e
  | .ok anim =>
  .ok { id := pyGetD kvs "id" .null
        position := position
        end_position := endPos
        fluid_type := pyGetD kvs "fluid_type" (.str "water")
        color := color
        flow_direction := pyGetD kvs "flow_direction" (.str "forward")
        diameter := pyGetD kvs "diameter" (.num 20)
        trim_start := pyGetD kvs "trim_start" (.bool false)
        trim_end := pyGetD kvs "trim_end" (.bool false)
        animationData := anim }

/-- `Pipe.to_dict`. -/
def Pipe.toDict (p : Pipe) : JVal :=
  .obj ([("type", .str "pipe"), ("id", p.id), ("position", .arr p.position),
         ("end_position", .arr p.end_position), ("fluid_type", p.fluid_type),
         ("color", .arr p.color), ("flow_direction", p.flow_direction),
         ("diameter", p.diameter), ("trim_start", p.trim_start),
         ("trim_end", p.trim_end)] ++ animationField p.animationData)

/-- An Elbow component (`elbow.py`). -/
structure Elbow where
  id : JVal
  position : List JVal
  connector_type : JVal
  color : List JVal
  size : JVal
  rotation : JVal
  diameter : JVal
  animationData : JVal
deriving DecidableEq

/-- `Elbow.__init__` with every optional argument left at its declared
default (`rotation = 0` among them). -/
def Elbow.mkDefault (position : List JVal) (component_id : JVal) : Elbow :=
  { id := component_id
    position := position
    connector_type := .str "elbow"
    color := [.num 100, .num 150, .num 255]
    size := .num 30
    rotation := .num 0
    diameter := .num 20
    animationData := .null }

/-- `Elbow.from_dict` composed with `Elbow.__init__` (note the `rotation`
default of `270` in `from_dict`, unlike the constructor's `0`). -/
def Elbow.fromDict (kvs : List (String × JVal)) : Except LoadError Elbow :=
  match reqSeq kvs "position" with
  | .error e => .error e
  | .ok position =>
  match optSeq kvs "color" [.num 100, .num 150, .num 255] with
  | .error e => .error e
  | .ok color =>
  match extractAnimation kvs with
  | .error e => .error e
  | .ok anim =>
  .ok { id := pyGetD kvs "id" .null
        position := position
        connector_type := pyGetD kvs "connector_type" (.str "elbow")
        color := color
        size := pyGetD kvs "size" (.num 30)
        rotation := pyGetD kvs "rotation" (.num 270)
        diameter := pyGetD kvs "diameter" (.num 20)
        animationData := anim }

/-- `Elbow.to_dict`. -/
def Elbow.toDict (e : Elbow) : JVal :=
  .obj ([("type", .str "elbow"), ("id", e.id), ("position", .arr e.position),
         ("connector_type", e.connector_type), ("color", .arr e.color),
         ("size", e.size), ("rotation", e.rotation), ("diameter", e.diameter)]
        ++ animationField e.animationData)

/-- A Tee component (`tee.py`); its `from_dict`/`to_dict` carry no label or
animation data. -/
structure Tee where
  id : JVal
  position : List JVal
  color : List JVal
  rotation : JVal
  diameter : JVal
deriving DecidableEq

/-- `Tee.from_dict` composed with `Tee.__init__`. -/
def Tee.fromDict (kvs : List (String × JVal)) : Except LoadError Tee :=
  match reqSeq kvs "position" with
  | .error e => .error e
  | .ok position =>
  match optSeq kvs "color" [.num 100, .num 150, .num 255] with
  | .error e => .error e
  | .ok color =>
  .ok { id := pyGetD kvs "id" .null
        position := position
        color := color
        rotation := pyGetD kvs "rotation" (.num 0)
        diameter := pyGetD kvs "diameter" (.num 20) }

/-- `Tee.to_dict`. -/
def Tee.toDict (t : Tee) : JVal :=
  .obj [("type", .str "tee"), ("id", t.id), ("position", .arr t.position),
        ("color", .arr t.color), ("rotation", t.rotation),
        ("diameter", t.diameter)]

/-- A loaded scene component: the closed variant set the loader constructs. -/
inductive Comp where
  | pipe (p : Pipe)
  | elbow (e : Elbow)
  | tank (t : Tank)
  | tee (t : Tee)
deriving DecidableEq

/-- `JSONLoader._create_component`: dispatch on the `type` tag; only
`pipe`, `elbow`, `tank` and `tee` are recognized, everything else raises
`ValueError(f"Unknown component type: {comp_type}")`. -/
def createComponent (data : JVal) : Except LoadError Comp :=
  match data with
  | .obj kvs =>
      if pyGetD kvs "type" .null = .str "pipe" then (Pipe.fromDict kvs).map .pipe
      else if pyGetD kvs "type" .null = .str "elbow" then (Elbow.fromDict kvs).map .elbow
      else if pyGetD kvs "type" .null = .str "tank" then (Tank.fromDict kvs).map .tank
      else if pyGetD kvs "type" .null = .str "tee" then (Tee.fromDict kvs).map .tee
      else .error (.unknownType (pyGetD kvs "type" .null))
  | _ => .error (.fieldError "component element is not an object")

/-- `JSONLoader.load_from_string` after `json.loads`: the top level must be
an object, `components` (defaulting to `[]`) must be a list, and every
element must construct — one failure aborts the whole load. -/
def loadComponents (doc : JVal) : Except LoadError (List Comp) :=
  match doc with
  | .obj kvs =>
      match (pyLookup kvs "components").getD (.arr []) with
      | .arr comps => mapExcept createComponent comps
      | _ => .error .componentsNotArray
  | _ => .error .notAnObject

/-- Per-variant serialization (`Component.to_dict` dispatch). -/
def Comp.toDict : Comp → JVal
  | .pipe p => p.toDict
  | .elbow e => e.toDict
  | .tank t => t.toDict
  | .tee t => t.toDict

/-- `JSONLoader.components_to_json` up to text layout: the document value
the compact formatter renders. -/
def componentsToJson (comps : List Comp) : JVal :=
  .obj [("components", .arr (comps.map Comp.toDict))]

/-! ### Round-trip infrastructure for the loader -/

instance {ε α : Type} [DecidableEq ε] [DecidableEq α] : DecidableEq (Except ε α) :=
  fun x y =>
    match x, y with
    | .error a, .error b =>
        if h : a = b then .isTrue (congrArg Except.error h)
        else .isFalse (fun hc => h (Except.error.inj hc))
    | .ok a, .ok b =>
        if h : a = b then .isTrue (congrArg Except.ok h)
        else .isFalse (fun hc => h (Except.ok.inj hc))
    | .error _, .ok _ => .isFalse (fun hc => Except.noConfusion hc)
    | .ok _, .error _ => .isFalse (fun hc => Except.noConfusion hc)

/-- `parse(serialize(parse(doc)))` in one function: reload the document a
parsed scene serializes to (errors pass through). -/
def roundTripOnce (doc : JVal) : Except LoadError (List Comp) :=
  match loadComponents doc with
  | .ok comps => loadComponents (componentsToJson comps)
  | .error e => .error e

/-- The variant discriminator of a loaded component (its `type` tag). -/
def variantTag : Comp → String
  | .pipe _ => "pipe"
  | .elbow _ => "elbow"
  | .tank _ => "tank"
  | .tee _ => "tee"

/-- Invariant of a stored `_animation_data` value after `set_animation`:
falsy data was dropped to `None`, truthy data passed controller
construction. -/
def animStoredOK (a : JVal) : Bool :=
  if a.truthy then validAnimationData a else a == JVal.null

/-- Parse-time invariant of a loaded component: what `from_dict`
establishes about the fields the serializer re-reads. -/
def Comp.invOK : Comp → Bool
  | .pipe p => animStoredOK p.animationData
  | .elbow e => animStoredOK e.animationData
  | .tank t =>
      animStoredOK t.animationData &&
      decide (0 ≤ t.initial_fill_percent) &&
      decide (t.initial_fill_percent ≤ 100) &&
      decide (t.fill_percent = t.initial_fill_percent) &&
      decide (t.last_update_time = 0) &&
      decide (normalizeFluidPercents t.initial_fill_percent t.fluids = t.fluids)
  | .tee _ => true

/-- A component whose `show_label` attribute is an honest boolean (the
loader stores the raw document value; serialization canonicalizes it). -/
def Comp.showLabelBool : Comp → Bool
  | .tank t => match t.show_label with | .bool _ => true | _ => false
  | _ => true

theorem extractAnimation_ok {kvs : List (String × JVal)} {a : JVal}
    (h : extractAnimation kvs = .ok a) : animStoredOK a = true := by
  unfold extractAnimation at h
  rcases hl : pyLookup kvs "animation" with _ | v
  · rw [hl] at h
    injection h with h
    subst h
    rfl
  · rw [hl] at h
    dsimp only at h
    by_cases htr : v.truthy
    · rw [if_pos htr] at h
      by_cases hv : validAnimationData v = true
      · rw [if_pos hv] at h
        injection h with h
        subst h
        simp [animStoredOK, htr, hv]
      · rw [if_neg hv] at h
        exact absurd h (by simp)
    · rw [if_neg htr] at h
      injection h with h
      subst h
      rfl

theorem mapExcept_map_eq_ok {α γ : Type} (f : γ → Except LoadError α) (g : α → γ)
    (l : List α) (h : ∀ x ∈ l, f (g x) = .ok x) : mapExcept f (l.map g) = .ok l := by
  induction l with
  | nil => rfl
  | cons hd tl ih =>
      have hhd := h hd (List.mem_cons_self hd tl)
      have htl := ih (fun x hx => h x (List.mem_cons_of_mem hd hx))
      simp [mapExcept, hhd, htl]

theorem mapExcept_error_of_mem {α β : Type} (f : α → Except LoadError β)
    (xs : List α) (x : α) (hx : x ∈ xs) (e0 : LoadError) (hf : f x = .error e0) :
    ∃ e, mapExcept f xs = .error e := by
  induction xs with
  | nil => cases hx
  | cons hd tl ih =>
      rcases List.mem_cons.mp hx with heq | hmem
      · subst heq
        exact ⟨e0, by simp [mapExcept, hf]⟩
      · rcases hhd : f hd with e | y
        · exact ⟨e, by simp [mapExcept, hhd]⟩
        · rcases ih hmem with ⟨e, he⟩
          exact ⟨e, by simp [mapExcept, hhd, he]⟩

theorem mapExcept_ok_forall {α β : Type} (f : α → Except LoadError β)
    (xs : List α) (ys : List β) (h : mapExcept f xs = .ok ys) :
    ∀ y ∈ ys, ∃ x ∈ xs, f x = .ok y := by
  induction xs generalizing ys with
  | nil =>
      unfold mapExcept at h
      injection h with h
      subst h
      intro y hy
      cases hy
  | cons hd tl ih =>
      unfold mapExcept at h
      rcases hhd : f hd with e | y0
      · rw [hhd] at h
        cases h
      · rw [hhd] at h
        rcases htl : mapExcept f tl with e | ys0
        · rw [htl] at h
          cases h
        · rw [htl] at h
          injection h with h
          subst h
          intro y hy
          rcases List.mem_cons.mp hy with hyeq | hymem
          · exact ⟨hd, List.mem_cons_self hd tl, hyeq ▸ hhd⟩
          · rcases ih ys0 htl y hymem with ⟨x, hxmem, hfx⟩
            exact ⟨x, List.mem_cons_of_mem hd hxmem, hfx⟩

theorem parseFluid_toDict (f : Fluid) : parseFluid (Fluid.toDict f) = .ok f := by
  obtain ⟨c, n, p, d, fi⟩ := f
  cases c <;> cases n <;>
    simp [parseFluid, Fluid.toDict, optNum, pyLookup, List.find?, JVal.asNum]

theorem pipe_reparse (p : Pipe) (hanim : animStoredOK p.animationData = true) :
    createComponent (Pipe.toDict p) = .ok (.pipe p) := by
  unfold animStoredOK at hanim
  cases htr : p.animationData.truthy with
  | false =>
      rw [htr, if_neg (by simp)] at hanim
      have hnull : p.animationData = JVal.null := by simpa using hanim
      simp [createComponent, Pipe.toDict, animationField, htr, Pipe.fromDict, reqSeq, optSeq,
        extractAnimation, pyLookup, pyGetD, List.find?, pySeqToList, hnull]
      rw [← hnull]
      rfl
  | true =>
      rw [htr, if_pos rfl] at hanim
      simp [createComponent, Pipe.toDict, animationField, htr, Pipe.fromDict, reqSeq, optSeq,
        extractAnimation, pyLookup, pyGetD, List.find?, pySeqToList, hanim]
      rfl

theorem elbow_reparse (e : Elbow) (hanim : animStoredOK e.animationData = true) :
    createComponent (Elbow.toDict e) = .ok (.elbow e) := by
  unfold animStoredOK at hanim
  cases htr : e.animationData.truthy with
  | false =>
      rw [htr, if_neg (by simp)] at hanim
      have hnull : e.animationData = JVal.null := by simpa using hanim
      simp [createComponent, Elbow.toDict, animationField, htr, Elbow.fromDict, reqSeq, optSeq,
        extractAnimation, pyLookup, pyGetD, List.find?, pySeqToList, hnull]
      rw [← hnull]
      rfl
  | true =>
      rw [htr, if_pos rfl] at hanim
      simp [createComponent, Elbow.toDict, animationField, htr, Elbow.fromDict, reqSeq, optSeq,
        extractAnimation, pyLookup, pyGetD, List.find?, pySeqToList, hanim]
      rfl

theorem tee_reparse (t : Tee) : createComponent (Tee.toDict t) = .ok (.tee t) := by
  simp [createComponent, Tee.toDict, Tee.fromDict, reqSeq, optSeq,
    pyLookup, pyGetD, List.find?, pySeqToList]
  rfl

theorem normalizeFluidPercents_of_not_pos (F : ℚ) (fs : List Fluid)
    (h : ¬ 0 < (fs.map (fun f => f.percent)).sum) :
    normalizeFluidPercents F fs = fs := by
  simp only [normalizeFluidPercents]
  rw [if_neg h]

theorem normalizeFluidPercents_of_pos (F : ℚ) (fs : List Fluid)
    (h : 0 < (fs.map (fun f => f.percent)).sum) :
    normalizeFluidPercents F fs =
      fs.map (fun f => { f with
        percent := f.percent / (fs.map (fun f => f.percent)).sum * F }) := by
  simp only [normalizeFluidPercents]
  rw [if_pos h]

theorem normalize_sum (F : ℚ) (fs : List Fluid)
    (h : 0 < (fs.map (fun f => f.percent)).sum) :
    ((normalizeFluidPercents F fs).map (fun f => f.percent)).sum = F := by
  rw [normalizeFluidPercents_of_pos F fs h, List.map_map]
  have hcomp : ((fun f : Fluid => f.percent) ∘
      (fun f : Fluid => { f with
        percent := f.percent / (fs.map (fun f => f.percent)).sum * F }))
      = fun f : Fluid => f.percent * (F / (fs.map (fun f => f.percent)).sum) := by
    funext f
    show f.percent / (fs.map (fun f => f.percent)).sum * F = _
    ring
  rw [hcomp, List.sum_map_mul_right]
  field_simp

theorem normalizeFluidPercents_idem (F : ℚ) (hF : 0 ≤ F) (fs : List Fluid) :
    normalizeFluidPercents F (normalizeFluidPercents F fs) = normalizeFluidPercents F fs := by
  by_cases h : 0 < ((fs.map (fun f => f.percent)).sum)
  · have hsum := normalize_sum F fs h
    rcases lt_or_eq_of_le hF with hFpos | hF0
    · rw [normalizeFluidPercents_of_pos F _ (by rw [hsum]; exact hFpos), hsum]
      have hid : ∀ f : Fluid, ({ f with percent := f.percent / F * F } : Fluid) = f := by
        intro f
        have hc : f.percent / F * F = f.percent := div_mul_cancel₀ _ (ne_of_gt hFpos)
        rw [hc]
      calc (normalizeFluidPercents F fs).map
            (fun f => { f with percent := f.percent / F * F })
          = (normalizeFluidPercents F fs).map id := List.map_congr_left (fun f _ => hid f)
        _ = normalizeFluidPercents F fs := List.map_id _
    · exact normalizeFluidPercents_of_not_pos F _ (by rw [hsum, ← hF0]; exact lt_irrefl 0)
  · rw [normalizeFluidPercents_of_not_pos F fs h, normalizeFluidPercents_of_not_pos F fs h]

theorem clampPercent_eq_self {q : ℚ} (h0 : 0 ≤ q) (h100 : q ≤ 100) :
    clampPercent q = q := by
  unfold clampPercent
  rw [min_eq_right h100, max_eq_right h0]

theorem tank_reparse (t : Tank)
    (hanim : animStoredOK t.animationData = true)
    (hsl : Comp.showLabelBool (.tank t) = true)
    (h0 : 0 ≤ t.initial_fill_percent) (h100 : t.initial_fill_percent ≤ 100)
    (hfill : t.fill_percent = t.initial_fill_percent)
    (hlast : t.last_update_time = 0)
    (hnorm : normalizeFluidPercents t.initial_fill_percent t.fluids = t.fluids) :
    createComponent (Tank.toDict t) = .ok (.tank t) := by
  have hfl : mapExcept parseFluid (t.fluids.map Fluid.toDict) = .ok t.fluids :=
    mapExcept_map_eq_ok _ _ _ (fun f _ => parseFluid_toDict f)
  have hclamp := clampPercent_eq_self h0 h100
  obtain ⟨tid, tpos, tw, th, tts, tbs, tifp, tfp, twt, tfl, tlut, tsl, tlt, tlp, tan⟩ := t
  simp only at hanim hsl h0 h100 hfill hlast hnorm hfl hclamp ⊢
  subst hfill
  subst hlast
  unfold Comp.showLabelBool at hsl
  rcases tsl with _ | b | q | s | xs | kvs <;> simp at hsl
  unfold animStoredOK at hanim
  cases htr : tan.truthy with
  | false =>
      rw [htr, if_neg (by simp)] at hanim
      have hnull : tan = JVal.null := by simpa using hanim
      subst hnull
      cases b <;>
        by_cases hlt : tlt = JVal.null <;>
          by_cases hlp : tlp = JVal.str "above" <;>
            simp [createComponent, Tank.toDict, tankLabelFields, animationField,
              Tank.fromDict, parseFluidsField, reqSeq, optNum,
              extractAnimation, pyLookup, pyGetD, List.find?, pySeqToList,
              JVal.asNum, hfl, hclamp, hnorm, hlt, hlp] <;> rfl
  | true =>
      rw [htr, if_pos rfl] at hanim
      cases b <;>
        by_cases hlt : tlt = JVal.null <;>
          by_cases hlp : tlp = JVal.str "above" <;>
            simp [createComponent, Tank.toDict, tankLabelFields, animationField,
              Tank.fromDict, parseFluidsField, reqSeq, optNum,
              extractAnimation, pyLookup, pyGetD, List.find?, pySeqToList,
              JVal.asNum, hfl, hclamp, hnorm, hlt, hlp, htr, hanim] <;> rfl

theorem clampPercent_nonneg (q : ℚ) : 0 ≤ clampPercent q := le_max_left 0 _

theorem clampPercent_le_100 (q : ℚ) : clampPercent q ≤ 100 :=
  max_le (by norm_num) (min_le_left _ _)

theorem pipeFromDict_inv {kvs : List (String × JVal)} {p : Pipe}
    (h : Pipe.fromDict kvs = .ok p) : animStoredOK p.animationData = true := by
  unfold Pipe.fromDict at h
  split at h
  · cases h
  · split at h
    · cases h
    · split at h
      · cases h
      · split at h
        · cases h
        · rename_i anim heq
          injection h with h
          subst h
          exact extractAnimation_ok heq

theorem elbowFromDict_inv {kvs : List (String × JVal)} {e : Elbow}
    (h : Elbow.fromDict kvs = .ok e) : animStoredOK e.animationData = true := by
  unfold Elbow.fromDict at h
  split at h
  · cases h
  · split at h
    · cases h
    · split at h
      · cases h
      · rename_i anim heq
        injection h with h
        subst h
        exact extractAnimation_ok heq

theorem tankFromDict_inv {kvs : List (String × JVal)} {t : Tank}
    (h : Tank.fromDict kvs = .ok t) : Comp.invOK (.tank t) = true := by
  unfold Tank.fromDict at h
  split at h
  · cases h
  · split at h
    · cases h
    · split at h
      · cases h
      · split at h
        · cases h
        · rename_i anim heq
          injection h with h
          subst h
          simp [Comp.invOK, extractAnimation_ok heq, clampPercent_nonneg,
            clampPercent_le_100, normalizeFluidPercents_idem _ (clampPercent_nonneg _) _]

theorem createComponent_ok_inv {d : JVal} {c : Comp}
    (h : createComponent d = .ok c) : Comp.invOK c = true := by
  unfold createComponent at h
  split at h
  · rename_i kvs
    split at h
    · rcases hm : Pipe.fromDict kvs with e | p
      · rw [hm] at h
        cases h
      · rw [hm] at h
        injection h with h
        subst h
        exact pipeFromDict_inv hm
    · split at h
      · rcases hm : Elbow.fromDict kvs with e | el
        · rw [hm] at h
          cases h
        · rw [hm] at h
          injection h with h
          subst h
          exact elbowFromDict_inv hm
      · split at h
        · rcases hm : Tank.fromDict kvs with e | tk
          · rw [hm] at h
            cases h
          · rw [hm] at h
            injection h with h
            subst h
            exact tankFromDict_inv hm
        · split at h
          · rcases hm : Tee.fromDict kvs with e | te
            · rw [hm] at h
              cases h
            · rw [hm] at h
              injection h with h
              subst h
              rfl
          · cases h
  · cases h

theorem loadComponents_ok_inv {doc : JVal} {comps : List Comp}
    (h : loadComponents doc = .ok comps) : ∀ c ∈ comps, Comp.invOK c = true := by
  unfold loadComponents at h
  split at h
  · rename_i kvs
    split at h
    · rename_i l hl
      intro c hc
      rcases mapExcept_ok_forall createComponent l comps h c hc with ⟨x, _, hok⟩
      exact createComponent_ok_inv hok
    · cases h
  · cases h

theorem createComponent_toDict (c : Comp) (hinv : Comp.invOK c = true)
    (hsl : Comp.showLabelBool c = true) :
    createComponent (Comp.toDict c) = .ok c := by
  cases c with
  | pipe p => exact pipe_reparse p hinv
  | elbow e => exact elbow_reparse e hinv
  | tee t => exact tee_reparse t
  | tank t =>
      simp only [Comp.invOK, Bool.and_eq_true, decide_eq_true_eq] at hinv
      exact tank_reparse t hinv.1.1.1.1.1 hsl hinv.1.1.1.1.2 hinv.1.1.1.2
        hinv.1.1.2 hinv.1.2 hinv.2

theorem loadComponents_reparse (comps : List Comp)
    (hinv : ∀ c ∈ comps, Comp.invOK c = true)
    (hsl : ∀ c ∈ comps, Comp.showLabelBool c = true) :
    loadComponents (componentsToJson comps) = .ok comps := by
  unfold loadComponents componentsToJson
  simp only [pyLookup, List.find?]
  exact mapExcept_map_eq_ok _ _ _ (fun c hc => createComponent_toDict c (hinv c hc) (hsl c hc))

/-! ### Tank fluid dynamics (`Tank._update_fluid_levels`) -/

/-- Per-layer update: `fluid["percent"] = max(0.0, percent + net_rate*dt)`. -/
def Fluid.updateStep (dt : ℚ) (f : Fluid) : Fluid :=
  { f with percent := max 0 (f.percent + (f.fill_rate - f.drain_rate) * dt) }

/-- `Tank._update_fluid_levels`: the first call only records the time;
later calls advance every layer by its net rate, clamp at zero, and
rescale proportionally when the total would exceed 100. -/
def Tank.updateFluidLevels (t : Tank) (time : ℚ) : Tank :=
  if t.last_update_time = 0 then { t with last_update_time := time }
  else
    let dt := time - t.last_update_time
    let fluids1 := t.fluids.map (Fluid.updateStep dt)
    let totalFill := (fluids1.map (·.percent)).sum
    if 100 < totalFill then
      { t with
        fluids := fluids1.map (fun f => { f with percent := f.percent * (100 / totalFill) })
        fill_percent := 100
        last_update_time := time }
    else
      { t with fluids := fluids1, fill_percent := totalFill, last_update_time := time }

theorem updateFluidLevels_inv (t : Tank) (time : ℚ)
    (h1 : ∀ f ∈ t.fluids, 0 ≤ f.percent)
    (h2 : (t.fluids.map (fun f => f.percent)).sum ≤ 100) :
    (∀ f ∈ (t.updateFluidLevels time).fluids, 0 ≤ f.percent) ∧
    ((t.updateFluidLevels time).fluids.map (fun f => f.percent)).sum ≤ 100 := by
  unfold Tank.updateFluidLevels
  by_cases hl : t.last_update_time = 0
  · rw [if_pos hl]
    exact ⟨h1, h2⟩
  · rw [if_neg hl]
    simp only []
    have hpos1 : ∀ f ∈ t.fluids.map (Fluid.updateStep (time - t.last_update_time)),
        0 ≤ f.percent := by
      intro f hf
      rcases List.mem_map.mp hf with ⟨g, _, hg⟩
      subst hg
      exact le_max_left 0 _
    by_cases htot : 100 <
        ((t.fluids.map (Fluid.updateStep (time - t.last_update_time))).map
          (fun f => f.percent)).sum
    · rw [if_pos htot]
      have hT : ((t.fluids.map (Fluid.updateStep (time - t.last_update_time))).map
          (fun f => f.percent)).sum ≠ 0 := by linarith
      constructor
      · intro f hf
        rcases List.mem_map.mp hf with ⟨g, hgmem, hg⟩
        subst hg
        have h100T : (0:ℚ) ≤ 100 /
            ((t.fluids.map (Fluid.updateStep (time - t.last_update_time))).map
              (fun f => f.percent)).sum := by
          apply div_nonneg (by norm_num)
          linarith
        exact mul_nonneg (hpos1 g hgmem) h100T
      · rw [List.map_map]
        have hcomp : ((fun f : Fluid => f.percent) ∘ (fun f : Fluid =>
            { f with percent := f.percent * (100 /
              ((t.fluids.map (Fluid.updateStep (time - t.last_update_time))).map
                (fun f => f.percent)).sum) }))
            = fun f : Fluid => f.percent * (100 /
              ((t.fluids.map (Fluid.updateStep (time - t.last_update_time))).map
                (fun f => f.percent)).sum) := rfl
        rw [hcomp, List.sum_map_mul_right]
        have hS : (List.map (fun f : Fluid => f.percent)
            (t.fluids.map (Fluid.updateStep (time - t.last_update_time)))).sum *
            (100 / (List.map (fun f : Fluid => f.percent)
              (t.fluids.map (Fluid.updateStep (time - t.last_update_time)))).sum) = 100 := by
          have hT' : (List.map ((fun f : Fluid => f.percent) ∘
              Fluid.updateStep (time - t.last_update_time)) t.fluids).sum ≠ 0 := by
            rw [← List.map_map]
            exact hT
          field_simp
        exact le_of_eq hS
    · rw [if_neg htot]
      exact ⟨hpos1, le_of_not_lt htot⟩

/-! ### Symbol geometry scaling (`render` methods) and the blink law -/

/-- The shared base cell size: every `render` computes `zoom = grid_size / 50.0`. -/
def baseGridSize : ℚ := 50

/-- `Pipe.render`: `scaled_diameter = int(self.diameter * zoom)`. -/
def pipeRenderWidth (diameter gridSize : ℚ) : ℤ :=
  pyint (diameter * (gridSize / baseGridSize))

/-- `Elbow._render_elbow`: `pipe_width = int(self.diameter * zoom)`. -/
def elbowRenderWidth (diameter gridSize : ℚ) : ℤ :=
  pyint (diameter * (gridSize / baseGridSize))

/-- `Valve.render`: `pipe_width = int(self.diameter * zoom)`. -/
def valveRenderWidth (diameter gridSize : ℚ) : ℤ :=
  pyint (diameter * (gridSize / baseGridSize))

/-- `Tee.render`: `pipe_width = self.diameter` — the raw diameter, with no
zoom factor applied (the grid size is unused by the body geometry). -/
def teeRenderWidth (diameter _gridSize : ℚ) : ℚ :=
  diameter

/-- `blink_speed = 2.0` of the flashing overlays. -/
def blink_speed : ℚ := 2

/-- The blink law of `Valve._draw_flashing_x` (shared with `pipe.py` and
`pump.py`): `alpha = (sin(time * blink_speed * 2 * pi) + 1) / 2`. -/
noncomputable def valveBlinkAlpha (t : ℝ) : ℝ :=
  (Real.sin (t * (blink_speed : ℝ) * 2 * Real.pi) + 1) / 2

/-- Visibility of the closed-valve X overlay at time `t`: the draw is
skipped exactly when `alpha < 0.3`. -/
def xOverlayShown (t : ℝ) : Prop := ¬ (valveBlinkAlpha t < 3/10)


/-! ### Concrete scene documents and components used by the claim theorems -/

/-- A document with a single animated-fill tank (`fill_rate` 2 %/s). -/
def c1FrameDoc : JVal := .obj [("components", .arr [.obj [("type", .str "tank"),
  ("position", .arr [.num 0, .num 0]), ("fill_percent", .num 70),
  ("fluids", .arr [.obj [("name", .str "water"), ("percent", .num 100),
    ("fill_rate", .num 2)]])]])]

/-- The tank `c1FrameDoc` parses to. -/
def c1Tank : Tank :=
  { id := JVal.null
    position := [JVal.num 0, JVal.num 0]
    width := JVal.num 3
    height := JVal.num 4
    top_style := JVal.str "flat"
    bottom_style := JVal.str "flat"
    initial_fill_percent := 70
    fill_percent := 70
    wall_thickness := JVal.num 3
    fluids := [⟨none, some (JVal.str "water"), 70, 0, 2⟩]
    last_update_time := 0
    show_label := JVal.bool true
    label_text := JVal.null
    label_position := JVal.str "above"
    animationData := JVal.null }

/-- The state of `c1Tank` after render frames at `t = 1` and `t = 2`. -/
def c1TankAfter : Tank := { c1Tank with
  fluids := [⟨none, some (JVal.str "water"), 72, 0, 2⟩]
  fill_percent := 72
  last_update_time := 2 }

/-- A tank whose rates force the proportional rescale within a few steps. -/
def c4Tank : Tank :=
  { id := JVal.null
    position := [JVal.num 0, JVal.num 0]
    width := JVal.num 3
    height := JVal.num 4
    top_style := JVal.str "flat"
    bottom_style := JVal.str "flat"
    initial_fill_percent := 90
    fill_percent := 90
    wall_thickness := JVal.num 3
    fluids := [⟨none, some (JVal.str "water"), 60, 0, 20⟩,
               ⟨none, some (JVal.str "oil"), 30, 5, 0⟩]
    last_update_time := 0
    show_label := JVal.bool true
    label_text := JVal.null
    label_position := JVal.str "above"
    animationData := JVal.null }

/-- A single-pipe document. -/
def c5wDoc : JVal := .obj [("components", .arr [.obj [("type", .str "pipe"),
  ("position", .arr [.num 0, .num 0]), ("end_position", .arr [.num 4, .num 0]),
  ("diameter", .num 20)]])]

/-- The pipe `c5wDoc` parses to. -/
def c5wPipe : Pipe :=
  { id := JVal.null
    position := [JVal.num 0, JVal.num 0]
    end_position := [JVal.num 4, JVal.num 0]
    fluid_type := JVal.str "water"
    color := [JVal.num 100, JVal.num 150, JVal.num 255]
    flow_direction := JVal.str "forward"
    diameter := JVal.num 20
    trim_start := JVal.bool false
    trim_end := JVal.bool false
    animationData := JVal.null }

/-- A parsing document whose tank carries a non-boolean (falsy) `show_label`. -/
def c5BadDoc : JVal := .obj [("components", .arr [.obj [("type", .str "tank"),
  ("position", .arr [.num 0, .num 0]), ("show_label", .str "")]])]

/-- The tank `c5BadDoc` parses to (raw `show_label` string preserved). -/
def c5BadTank : Tank :=
  { id := JVal.null
    position := [JVal.num 0, JVal.num 0]
    width := JVal.num 3
    height := JVal.num 4
    top_style := JVal.str "flat"
    bottom_style := JVal.str "flat"
    initial_fill_percent := 75
    fill_percent := 75
    wall_thickness := JVal.num 3
    fluids := [⟨some (JVal.arr [JVal.num 100, JVal.num 150, JVal.num 255]),
      some (JVal.str "water"), 75, 0, 0⟩]
    last_update_time := 0
    show_label := JVal.str ""
    label_text := JVal.null
    label_position := JVal.str "above"
    animationData := JVal.null }

/-- What reloading the serialization of `c5BadTank` yields: the falsy
string `show_label` came back as the boolean `false`. -/
def c5BadTank2 : Tank := { c5BadTank with show_label := JVal.bool false }

/-- A component element with the unknown tag `widget`. -/
def widgetElement : List (String × JVal) :=
  [("type", JVal.str "widget"), ("position", JVal.arr [JVal.num 0, JVal.num 0])]

/-- A document containing one `widget` element. -/
def widgetDoc : JVal := .obj [("components", .arr [.obj widgetElement])]

/-- An elbow element that omits `rotation`. -/
def c9ElbowDoc : JVal := .obj [("components", .arr [.obj [("type", .str "elbow"),
  ("position", .arr [.num 0, .num 0])]])]

/-! ### Claim theorems -/

/-- C1 (amended): `apply_animation` followed by `restore_properties` restores
every property the active keyframe overrode to its pre-call value — the
save/apply/restore discipline is an identity on the attribute dictionary
taken alone. (The original claim, that a whole frame including `render`
leaves every persisted attribute unchanged, fails for Tanks: see the
counterexample, where rendering advances the persisted fluid levels.) -/
theorem C1_apply_restore_roundtrip (m : PropMap) (ov : List (String × JVal))
    (hnd : (ov.map Prod.fst).Nodup) :
    restoreProperties (applyOverrides m ov).1 (applyOverrides m ov).2 = m :=
  restore_applyOverrides m ov hnd

theorem C1_apply_restore_roundtrip_witness :
    restoreProperties
      (applyOverrides [("color", JVal.num 7), ("state", JVal.str "open")]
        [("color", JVal.num 9), ("ghost", JVal.num 3)]).1
      (applyOverrides [("color", JVal.num 7), ("state", JVal.str "open")]
        [("color", JVal.num 9), ("ghost", JVal.num 3)]).2 =
      [("color", JVal.num 7), ("state", JVal.str "open")] :=
  C1_apply_restore_roundtrip [("color", JVal.num 7), ("state", JVal.str "open")]
    [("color", JVal.num 9), ("ghost", JVal.num 3)] (by decide)

/-- C1 counterexample: a frame rendered at `t = 1` and the next at `t = 2`
(the state effect of `Tank.render` is `_update_fluid_levels`; the tank has
no keyframes, so `apply_animation` returns `{}` and `restore_properties`
writes nothing back) leaves the parsed tank with different persisted fluid
percents, and its serialized dictionary differs from the pre-animation one. -/
theorem C1_tank_render_mutates_counterexample :
    loadComponents c1FrameDoc = .ok [Comp.tank c1Tank] ∧
    Tank.toDict ((c1Tank.updateFluidLevels 1).updateFluidLevels 2) ≠ Tank.toDict c1Tank ∧
    ((c1Tank.updateFluidLevels 1).updateFluidLevels 2).fluids.map (fun f => f.percent) ≠
      c1Tank.fluids.map (fun f => f.percent) := by
  have hupd : (c1Tank.updateFluidLevels 1).updateFluidLevels 2 = c1TankAfter := by
    simp [Tank.updateFluidLevels, Fluid.updateStep, c1Tank, c1TankAfter]
    norm_num
  refine ⟨?_, ?_, ?_⟩
  · simp [c1FrameDoc, loadComponents, mapExcept, createComponent, Tank.fromDict,
      parseFluidsField, parseFluid, defaultWaterFluid, reqSeq, optNum, extractAnimation,
      pyLookup, pyGetD, List.find?, pySeqToList, JVal.asNum, normalizeFluidPercents,
      clampPercent, c1Tank]
    norm_num
    rfl
  · rw [hupd]
    simp [Tank.toDict, tankLabelFields, animationField, Fluid.toDict, c1Tank, c1TankAfter]
  · rw [hupd]
    simp [c1Tank, c1TankAfter]

/-- C2 counterexample: the tag `valve` — a member of the ten-variant set the
claim says is fully dispatched — is rejected by `_create_component` with
`Unknown component type: valve`. -/
theorem C2_valve_tag_rejected_counterexample :
    createComponent (JVal.obj [("type", JVal.str "valve"),
      ("position", JVal.arr [JVal.num 0, JVal.num 0]), ("state", JVal.str "closed")]) =
      .error (.unknownType (JVal.str "valve")) := by decide

/-- C2 (amended): the loader dispatch set is exactly
`{pipe, elbow, tank, tee}`; each of those four tags constructs its variant,
and the six remaining documented tags (`valve`, `pump`, `sensor`,
`heat_exchanger`, `three_way_valve`, `four_way_valve`) are rejected with
an `UnknownComponentTypeError` naming the tag. -/
theorem C2_dispatch_set_amended :
    Except.map variantTag (createComponent (JVal.obj [("type", JVal.str "pipe"),
      ("position", JVal.arr [JVal.num 0, JVal.num 0]),
      ("end_position", JVal.arr [JVal.num 1, JVal.num 0])])) = .ok "pipe" ∧
    Except.map variantTag (createComponent (JVal.obj [("type", JVal.str "elbow"),
      ("position", JVal.arr [JVal.num 0, JVal.num 0])])) = .ok "elbow" ∧
    Except.map variantTag (createComponent (JVal.obj [("type", JVal.str "tank"),
      ("position", JVal.arr [JVal.num 0, JVal.num 0])])) = .ok "tank" ∧
    Except.map variantTag (createComponent (JVal.obj [("type", JVal.str "tee"),
      ("position", JVal.arr [JVal.num 0, JVal.num 0])])) = .ok "tee" ∧
    createComponent (JVal.obj [("type", JVal.str "valve"),
      ("position", JVal.arr [JVal.num 0, JVal.num 0])]) =
      .error (.unknownType (JVal.str "valve")) ∧
    createComponent (JVal.obj [("type", JVal.str "pump"),
      ("position", JVal.arr [JVal.num 0, JVal.num 0])]) =
      .error (.unknownType (JVal.str "pump")) ∧
    createComponent (JVal.obj [("type", JVal.str "sensor"),
      ("position", JVal.arr [JVal.num 0, JVal.num 0])]) =
      .error (.unknownType (JVal.str "sensor")) ∧
    createComponent (JVal.obj [("type", JVal.str "heat_exchanger"),
      ("position", JVal.arr [JVal.num 0, JVal.num 0])]) =
      .error (.unknownType (JVal.str "heat_exchanger")) ∧
    createComponent (JVal.obj [("type", JVal.str "three_way_valve"),
      ("position", JVal.arr [JVal.num 0, JVal.num 0])]) =
      .error (.unknownType (JVal.str "three_way_valve")) ∧
    createComponent (JVal.obj [("type", JVal.str "four_way_valve"),
      ("position", JVal.arr [JVal.num 0, JVal.num 0])]) =
      .error (.unknownType (JVal.str "four_way_valve")) := by
  refine ⟨by decide, by decide, by decide, by decide, by decide,
    by decide, by decide, by decide, by decide, by decide⟩

/-- C3: `get_active_keyframe_index` is total, invariant under shifting the
time by any integer multiple of `total_duration`, and for a non-empty
keyframe list (durations `≤ 0` coerced to the `0.001` floor by
construction) returns exactly the index whose cumulative-duration window
contains `t mod total_duration`; in exact arithmetic the index always
exists, so the last-keyframe fallback never fires. -/
theorem C3_active_index_total_periodic_characterized
    (kfs : List Keyframe) (t : ℚ) (k : ℤ) :
    (AnimationController.ofKeyframes kfs).getActiveKeyframeIndex
        (t + k * (AnimationController.ofKeyframes kfs).totalDuration) =
      (AnimationController.ofKeyframes kfs).getActiveKeyframeIndex t ∧
    (kfs ≠ [] → ∃ i : ℕ, i < kfs.length ∧
      (AnimationController.ofKeyframes kfs).getActiveKeyframeIndex t = (i : ℤ) ∧
      (((AnimationController.ofKeyframes kfs).durations.take i).sum ≤
        pymod t (AnimationController.ofKeyframes kfs).totalDuration) ∧
      (pymod t (AnimationController.ofKeyframes kfs).totalDuration <
        ((AnimationController.ofKeyframes kfs).durations.take (i+1)).sum)) :=
  ⟨getActiveKeyframeIndex_periodic _ t k,
    fun hne => getActiveKeyframeIndex_spec kfs hne t⟩

theorem C3_active_index_witness :
    (AnimationController.ofKeyframes [⟨2, []⟩, ⟨3, []⟩]).getActiveKeyframeIndex
        (7 + 1 * (AnimationController.ofKeyframes [⟨2, []⟩, ⟨3, []⟩]).totalDuration) =
      (AnimationController.ofKeyframes [⟨2, []⟩, ⟨3, []⟩]).getActiveKeyframeIndex 7 ∧
    (AnimationController.ofKeyframes [⟨2, []⟩, ⟨3, []⟩]).getActiveKeyframeIndex 7 = 1 :=
  ⟨(C3_active_index_total_periodic_characterized [⟨2, []⟩, ⟨3, []⟩] 7 1).1, by
    simp [AnimationController.getActiveKeyframeIndex, AnimationController.ofKeyframes,
      AnimationController.totalDuration, activeIndexLoop, pymod]
    norm_num [Int.floor_eq_iff]⟩

/-- C4: starting from any tank whose fluid percents are non-negative and
sum to at most 100 (what construction guarantees), any sequence of render
time steps keeps every layer non-negative and the total at most 100: each
step clamps layers at the 0 floor and rescales proportionally to exactly
100 when accumulation would exceed it. -/
theorem C4_tank_fluid_bounds (t0 : Tank) (ts : List ℚ)
    (h1 : ∀ f ∈ t0.fluids, 0 ≤ f.percent)
    (h2 : (t0.fluids.map (fun f => f.percent)).sum ≤ 100) :
    (∀ f ∈ (ts.foldl Tank.updateFluidLevels t0).fluids, 0 ≤ f.percent) ∧
    ((ts.foldl Tank.updateFluidLevels t0).fluids.map (fun f => f.percent)).sum ≤ 100 := by
  induction ts generalizing t0 with
  | nil => exact ⟨h1, h2⟩
  | cons hd tl ih =>
      obtain ⟨h1a, h2a⟩ := updateFluidLevels_inv t0 hd h1 h2
      exact ih (t0.updateFluidLevels hd) h1a h2a

theorem C4_tank_fluid_bounds_witness :
    ((((([1, 2, 3] : List ℚ).foldl Tank.updateFluidLevels c4Tank).fluids.map
      (fun f => f.percent)).sum) ≤ 100) :=
  (C4_tank_fluid_bounds c4Tank [1, 2, 3]
    (by intro f hf
        simp [c4Tank] at hf
        rcases hf with rfl | rfl <;> norm_num)
    (by norm_num [c4Tank])).2

/-- C5 (amended): for every document that parses successfully and whose
tank elements carry boolean `show_label` values (absent counts as the
boolean default), reloading the serialized scene reproduces the exact same
component list — same count, same variant types in order, same field
values. (In general serialization canonicalizes a truthy/falsy
`show_label` to a boolean, the one field the round trip can change: see
the counterexample.) -/
theorem C5_parse_serialize_roundtrip (doc : JVal) (comps : List Comp)
    (hok : loadComponents doc = .ok comps)
    (hsl : ∀ c ∈ comps, Comp.showLabelBool c = true) :
    loadComponents (componentsToJson comps) = .ok comps :=
  loadComponents_reparse comps (loadComponents_ok_inv hok) hsl

theorem C5_parse_serialize_roundtrip_witness :
    loadComponents (componentsToJson [Comp.pipe c5wPipe]) = .ok [Comp.pipe c5wPipe] :=
  C5_parse_serialize_roundtrip c5wDoc [Comp.pipe c5wPipe] (by decide) (by decide)

/-- C5 counterexample: a tank element with `show_label: ""` parses
successfully, but reloading its serialization yields a different scene —
the string is canonicalized to the boolean `false` — so
`parse(serialize(parse(doc)))` does not reproduce `parse(doc)` with
bit-equal field values for every successfully parsing document. -/
theorem C5_show_label_roundtrip_counterexample :
    roundTripOnce c5BadDoc ≠ loadComponents c5BadDoc ∧
    (loadComponents c5BadDoc).isOk = true := by
  have h1 : loadComponents c5BadDoc = .ok [Comp.tank c5BadTank] := by
    simp [c5BadDoc, loadComponents, mapExcept, createComponent, Tank.fromDict,
      parseFluidsField, parseFluid, defaultWaterFluid, reqSeq, optNum, extractAnimation,
      pyLookup, pyGetD, List.find?, pySeqToList, JVal.asNum, normalizeFluidPercents,
      clampPercent, c5BadTank]
    norm_num
    rfl
  have h2 : loadComponents (componentsToJson [Comp.tank c5BadTank]) =
      .ok [Comp.tank c5BadTank2] := by
    simp [componentsToJson, Comp.toDict, Tank.toDict, tankLabelFields, animationField,
      Fluid.toDict, loadComponents, mapExcept, createComponent, Tank.fromDict,
      parseFluidsField, parseFluid, reqSeq, optNum, extractAnimation, pyLookup, pyGetD,
      List.find?, pySeqToList, JVal.asNum, normalizeFluidPercents, clampPercent,
      c5BadTank, c5BadTank2]
    norm_num
    rfl
  have hrt : roundTripOnce c5BadDoc = .ok [Comp.tank c5BadTank2] := by
    unfold roundTripOnce
    rw [h1]
    exact h2
  rw [hrt, h1]
  refine ⟨?_, rfl⟩
  simp [c5BadTank, c5BadTank2]

/-- C6: a document containing an element whose `type` tag is none of
`pipe`/`elbow`/`tank`/`tee` never yields a component list — the load
aborts with an error — and the concrete `widget` scenario fails with
`UnknownComponentTypeError` whose message names `widget`. -/
theorem C6_unknown_tag_scene_rejected (kvs : List (String × JVal)) (comps : List JVal)
    (hc : (pyLookup kvs "components").getD (.arr []) = .arr comps)
    (el : List (String × JVal)) (hel : JVal.obj el ∈ comps)
    (tag : JVal) (htag : pyGetD el "type" .null = tag)
    (hbad : tag ≠ .str "pipe" ∧ tag ≠ .str "elbow" ∧ tag ≠ .str "tank" ∧ tag ≠ .str "tee") :
    (∃ e, loadComponents (.obj kvs) = .error e) ∧
    loadComponents widgetDoc = .error (.unknownType (.str "widget")) ∧
    (LoadError.unknownType (.str "widget")).message = "Unknown component type: widget" := by
  refine ⟨?_, by decide, by decide⟩
  have hcc : createComponent (.obj el) = .error (.unknownType tag) := by
    show (if pyGetD el "type" .null = .str "pipe" then (Pipe.fromDict el).map Comp.pipe
      else if pyGetD el "type" .null = .str "elbow" then (Elbow.fromDict el).map Comp.elbow
      else if pyGetD el "type" .null = .str "tank" then (Tank.fromDict el).map Comp.tank
      else if pyGetD el "type" .null = .str "tee" then (Tee.fromDict el).map Comp.tee
      else .error (.unknownType (pyGetD el "type" .null))) = .error (.unknownType tag)
    rw [htag, if_neg hbad.1, if_neg hbad.2.1, if_neg hbad.2.2.1, if_neg hbad.2.2.2]
  rcases mapExcept_error_of_mem createComponent comps _ hel _ hcc with ⟨e, he⟩
  refine ⟨e, ?_⟩
  show (match (pyLookup kvs "components").getD (.arr []) with
    | .arr comps => mapExcept createComponent comps
    | _ => Except.error .componentsNotArray) = Except.error e
  rw [hc]
  exact he

theorem C6_unknown_tag_witness :
    loadComponents widgetDoc = .error (.unknownType (.str "widget")) :=
  (C6_unknown_tag_scene_rejected [("components", JVal.arr [JVal.obj widgetElement])]
    [JVal.obj widgetElement] (by decide) widgetElement (by decide)
    (JVal.str "widget") (by decide) ⟨by decide, by decide, by decide, by decide⟩).2.1

/-- C7 counterexample: at `t = 0.75` the blink argument is `3π`, whose sine
is `0`, not `-1`: the alpha value is `0.5` and the closed-valve X overlay
is shown, contradicting the claim that `t = 0.75` is the first zero of the
blink (hidden, alpha `0`). -/
theorem C7_t075_overlay_shown_counterexample :
    Real.sin ((3/4 : ℝ) * ((blink_speed : ℚ) : ℝ) * 2 * Real.pi) = 0 ∧
    valveBlinkAlpha (3/4) = 1/2 ∧ xOverlayShown (3/4) := by
  have harg : (3/4 : ℝ) * ((blink_speed : ℚ) : ℝ) * 2 * Real.pi =
      ((3 : ℤ) : ℝ) * Real.pi := by
    norm_num [blink_speed]
  refine ⟨?_, ?_, ?_⟩
  · rw [harg, Real.sin_int_mul_pi]
  · unfold valveBlinkAlpha
    rw [harg, Real.sin_int_mul_pi]
    norm_num
  · unfold xOverlayShown valveBlinkAlpha
    rw [harg, Real.sin_int_mul_pi]
    norm_num

/-- C7 (amended): the closed-valve X overlay is governed by
`alpha(t) = (sin(2π·2·t) + 1)/2` with the `0.3` visibility threshold; at
`t = 0` it is shown with `alpha = 0.5`; the first `t ≥ 0` with
`sin(2π·2·t) = -1` is `t = 3/8` (not `0.75`), where `alpha = 0` and the
overlay is hidden. -/
theorem C7_blink_law_amended :
    (∀ s : ℝ, valveBlinkAlpha s = (Real.sin (2 * Real.pi * 2 * s) + 1) / 2) ∧
    valveBlinkAlpha 0 = 1/2 ∧ xOverlayShown 0 ∧
    Real.sin ((3/8 : ℝ) * ((blink_speed : ℚ) : ℝ) * 2 * Real.pi) = -1 ∧
    valveBlinkAlpha (3/8) = 0 ∧ ¬ xOverlayShown (3/8) ∧
    (∀ s : ℝ, 0 ≤ s → s < 3/8 →
      Real.sin (s * ((blink_speed : ℚ) : ℝ) * 2 * Real.pi) ≠ -1) := by
  have hpi := Real.pi_pos
  have harg38 : (3/8 : ℝ) * ((blink_speed : ℚ) : ℝ) * 2 * Real.pi =
      Real.pi / 2 + Real.pi := by
    norm_num [blink_speed]
    ring
  have hsin38 : Real.sin ((3/8 : ℝ) * ((blink_speed : ℚ) : ℝ) * 2 * Real.pi) = -1 := by
    rw [harg38, Real.sin_add_pi, Real.sin_pi_div_two]
  refine ⟨?_, ?_, ?_, hsin38, ?_, ?_, ?_⟩
  · intro s
    unfold valveBlinkAlpha
    have : s * ((blink_speed : ℚ) : ℝ) * 2 * Real.pi = 2 * Real.pi * 2 * s := by
      norm_num [blink_speed]
      ring
    rw [this]
  · unfold valveBlinkAlpha
    norm_num
  · unfold xOverlayShown valveBlinkAlpha
    norm_num
  · unfold valveBlinkAlpha
    rw [hsin38]
    norm_num
  · unfold xOverlayShown valveBlinkAlpha
    rw [hsin38]
    norm_num
  · intro s hs0 hs1 hsin
    rw [Real.sin_eq_neg_one_iff] at hsin
    obtain ⟨k, hk⟩ := hsin
    have hxval : s * ((blink_speed : ℚ) : ℝ) * 2 * Real.pi = s * (4 * Real.pi) := by
      norm_num [blink_speed]
      ring
    rw [hxval] at hk
    have hx0 : 0 ≤ s * (4 * Real.pi) := mul_nonneg hs0 (by positivity)
    have hx1 : s * (4 * Real.pi) < 3 * Real.pi / 2 := by nlinarith
    have hk1 : (1 : ℝ) ≤ (k : ℝ) := by
      by_contra hlt
      push_neg at hlt
      have hkint : k < 1 := by exact_mod_cast hlt
      have hk0 : k ≤ 0 := by omega
      have hk0r : (k : ℝ) ≤ 0 := by exact_mod_cast hk0
      nlinarith
    nlinarith

theorem C7_blink_law_witness :
    Real.sin ((1/4 : ℝ) * ((blink_speed : ℚ) : ℝ) * 2 * Real.pi) ≠ -1 :=
  C7_blink_law_amended.2.2.2.2.2.2 (1/4) (by norm_num) (by norm_num)

/-- C8: every other fitting computes its body width from the scaled
diameter `int(diameter * grid_size / 50)`, but `Tee.render` uses the raw
`diameter` with no zoom factor — at `grid_size = 100` a diameter-20 tee
keeps a 20-pixel bore while the pipes, elbows and valves it should join
draw at 40 pixels, contradicting the claim (and the code comment that the
tee's width should match connected pipes). -/
theorem C8_tee_ignores_zoom :
    pipeRenderWidth 20 100 = 40 ∧ elbowRenderWidth 20 100 = 40 ∧
    valveRenderWidth 20 100 = 40 ∧ teeRenderWidth 20 100 = 20 ∧
    teeRenderWidth 20 100 ≠ ((pipeRenderWidth 20 100 : ℤ) : ℚ) := by
  have hpy : pyint ((20 : ℚ) * (100 / baseGridSize)) = 40 := by
    rw [show (20 : ℚ) * (100 / baseGridSize) = ((40 : ℕ) : ℚ) by norm_num [baseGridSize]]
    unfold pyint
    rw [if_pos (by positivity), Int.floor_natCast]
    norm_num
  have h1 : pipeRenderWidth 20 100 = 40 := hpy
  refine ⟨h1, hpy, hpy, rfl, ?_⟩
  rw [h1]
  norm_num [teeRenderWidth]

/-- C9: an elbow element that omits `rotation` loads with rotation `270`
(`Elbow.from_dict` default), while `Elbow.__init__` called with defaulted
arguments produces rotation `0` — the two defaults differ. -/
theorem C9_elbow_from_dict_rotation_270 :
    (match loadComponents c9ElbowDoc with
     | .ok [Comp.elbow e] => e.rotation
     | _ => JVal.null) = JVal.num 270 ∧
    (Elbow.mkDefault [JVal.num 0, JVal.num 0] JVal.null).rotation = JVal.num 0 ∧
    (JVal.num 270 : JVal) ≠ JVal.num 0 :=
  ⟨by decide, by decide, by decide⟩

/-- C10: `apply_animation` writes only override keys that name an existing
attribute (so the attribute-name list is unchanged and no attribute is
created), returns originals holding exactly the overridden keys, and
leaves every attribute outside the override set untouched. -/
theorem C10_overrides_only_existing_attrs (m : PropMap) (ov : List (String × JVal)) :
    (applyOverrides m ov).1.map Prod.fst = m.map Prod.fst ∧
    (applyOverrides m ov).2.map Prod.fst =
      (ov.map Prod.fst).filter (fun k => m.hasattr k) ∧
    ∀ k : String, k ∉ ov.map Prod.fst →
      (applyOverrides m ov).1.getattr k = m.getattr k :=
  ⟨applyOverrides_keys m ov, applyOverrides_orig_keys m ov,
    fun k hk => applyOverrides_getattr_not_mem m ov k hk⟩

theorem C10_overrides_witness :
    (applyOverrides [("color", JVal.num 1), ("state", JVal.str "open")]
        [("color", JVal.num 2), ("ghost", JVal.num 3)]).1.map Prod.fst =
      ["color", "state"] ∧
    (applyOverrides [("color", JVal.num 1), ("state", JVal.str "open")]
        [("color", JVal.num 2), ("ghost", JVal.num 3)]).2.map Prod.fst = ["color"] ∧
    (applyOverrides [("color", JVal.num 1), ("state", JVal.str "open")]
        [("color", JVal.num 2), ("ghost", JVal.num 3)]).1.getattr "state" =
      JVal.str "open" := by
  have h := C10_overrides_only_existing_attrs
    [("color", JVal.num 1), ("state", JVal.str "open")]
    [("color", JVal.num 2), ("ghost", JVal.num 3)]
  exact ⟨by decide, by decide, h.2.2 "state" (by decide)⟩


end ProcessSketcher
